import Mathlib

/-!
Shallow embedding of `src/rust/src/nfs/nfs3_records.rs` (nom 4 parsers for
NFSv3 records) and verification of the specification claims about it.

Bytes are modelled as `List Nat`; a nom `IResult<&[u8], T>` becomes
`Except NErr (Bytes × T)` where `NErr.incomplete` models
`Err::Incomplete(Needed)` (a `take!`/`be_u32` running out of bytes) and
`NErr.error k` models `Err::Error(ErrorKind)` (`verify!` failures,
`complete!` converting an Incomplete, `many0!` detecting no progress).
All parsers are translated combinator-for-combinator from the source.
-/

abbrev Bytes := List Nat

inductive ErrKind where
  | Verify
  | Complete
  | Many0
deriving DecidableEq, Repr

inductive NErr where
  | incomplete
  | error (k : ErrKind)
deriving DecidableEq, Repr

abbrev IResult (α : Type) := Except NErr (Bytes × α)

/-- nom `take!(n)`: consume exactly `n` bytes, `Incomplete` if fewer remain. -/
def takeN (n : Nat) (i : Bytes) : IResult Bytes :=
  if n ≤ i.length then .ok (i.drop n, i.take n) else .error .incomplete

/-- nom `be_u32`: 4-byte big-endian unsigned integer. -/
def be_u32 (i : Bytes) : IResult Nat :=
  match i with
  | b0 :: b1 :: b2 :: b3 :: r => .ok (r, ((b0 * 256 + b1) * 256 + b2) * 256 + b3)
  | _ => .error .incomplete

/-- nom `be_u64`: 8-byte big-endian unsigned integer. -/
def be_u64 (i : Bytes) : IResult Nat :=
  match i with
  | b0 :: b1 :: b2 :: b3 :: b4 :: b5 :: b6 :: b7 :: r =>
      .ok (r, ((((((b0 * 256 + b1) * 256 + b2) * 256 + b3) * 256 + b4) * 256 + b5) * 256
        + b6) * 256 + b7)
  | _ => .error .incomplete

/-- nom `rest`: consume and return the whole remaining input. -/
def rest (i : Bytes) : IResult Bytes := .ok ([], i)

/-- nom `verify!(p, f)`: run `p`, fail with `ErrorKind::Verify` unless `f` holds. -/
def verify (p : Bytes → IResult Nat) (f : Nat → Bool) (i : Bytes) : IResult Nat :=
  match p i with
  | .ok (r, v) => if f v then .ok (r, v) else .error (.error .Verify)
  | .error e => .error e

/-- nom `cond!(b, p)`: run `p` only when `b`, otherwise consume nothing. -/
def pcond {α : Type} (b : Bool) (p : Bytes → IResult α) (i : Bytes) : IResult (Option α) :=
  if b then
    match p i with
    | .ok (r, v) => .ok (r, some v)
    | .error e => .error e
  else .ok (i, none)

/-- nom `complete!(p)`: turn an `Incomplete` result of `p` into a hard error. -/
def completeP {α : Type} (p : Bytes → IResult α) (i : Bytes) : IResult α :=
  match p i with
  | .error .incomplete => .error (.error .Complete)
  | r => r

/-- Fuel-indexed core of nom `many0!`: repeat `p` while it succeeds and
consumes input, returning the accumulated values; a sub-parse that fails
with `Err::Error` ends the loop, `Incomplete` propagates, and a successful
parse that consumes nothing is a `Many0` error. Fuel `i.length + 1`
always suffices because every continuing step consumes at least one byte. -/
def many0F {α : Type} (p : Bytes → IResult α) : Nat → Bytes → IResult (List α)
  | 0, _ => .error (.error .Many0)
  | fuel + 1, i =>
    match p i with
    | .error (.error _) => .ok (i, [])
    | .error .incomplete => .error .incomplete
    | .ok (i2, o) =>
      if i2.length < i.length then
        match many0F p fuel i2 with
        | .ok (r, os) => .ok (r, o :: os)
        | .error e => .error e
      else .error (.error .Many0)

/-- nom `many0!(p)`. -/
def many0 {α : Type} (p : Bytes → IResult α) (i : Bytes) : IResult (List α) :=
  many0F p (i.length + 1) i

structure Nfs3Handle where
  len : Nat
  value : Bytes
deriving DecidableEq, Repr

def parse_nfs3_handle (i : Bytes) : Except NErr (Bytes × Nfs3Handle) := do
  let (i, obj_len) ← be_u32 i
  let (i, obj) ← takeN obj_len i
  .ok (i, { len := obj_len, value := obj })

structure Nfs3ReplyCreate where
  status : Nat
  handle : Option Nfs3Handle
deriving DecidableEq, Repr

def parse_nfs3_response_create (i : Bytes) : Except NErr (Bytes × Nfs3ReplyCreate) := do
  let (i, status) ← be_u32 i
  let (i, handle_has_value) ← verify be_u32 (fun v => decide (v ≤ 1)) i
  let (i, handle) ← pcond (decide (handle_has_value = 1)) parse_nfs3_handle i
  .ok (i, { status := status, handle := handle })

structure Nfs3ReplyLookup where
  status : Nat
  handle : Nfs3Handle
deriving DecidableEq, Repr

def parse_nfs3_response_lookup (i : Bytes) : Except NErr (Bytes × Nfs3ReplyLookup) := do
  let (i, status) ← be_u32 i
  let (i, handle) ← parse_nfs3_handle i
  .ok (i, { status := status, handle := handle })

structure Nfs3RequestCreate where
  handle : Nfs3Handle
  name_len : Nat
  create_mode : Nat
  verifier : Bytes
  name_vec : Bytes
deriving DecidableEq, Repr

def parse_nfs3_request_create (i : Bytes) : Except NErr (Bytes × Nfs3RequestCreate) := do
  let (i, handle) ← parse_nfs3_handle i
  let (i, name_len) ← be_u32 i
  let (i, name) ← takeN name_len i
  let (i, create_mode) ← be_u32 i
  let (i, verifier) ← rest i
  .ok (i, { handle := handle, name_len := name_len, create_mode := create_mode,
            verifier := verifier, name_vec := name })

structure Nfs3RequestRemove where
  handle : Nfs3Handle
  name_len : Nat
  name_vec : Bytes
deriving DecidableEq, Repr

def parse_nfs3_request_remove (i : Bytes) : Except NErr (Bytes × Nfs3RequestRemove) := do
  let (i, handle) ← parse_nfs3_handle i
  let (i, name_len) ← be_u32 i
  let (i, name) ← takeN name_len i
  let (i, _fill_bytes) ← rest i
  .ok (i, { handle := handle, name_len := name_len, name_vec := name })

structure Nfs3RequestRmdir where
  handle : Nfs3Handle
  name_vec : Bytes
deriving DecidableEq, Repr

def parse_nfs3_request_rmdir (i : Bytes) : Except NErr (Bytes × Nfs3RequestRmdir) := do
  let (i, dir_handle) ← parse_nfs3_handle i
  let (i, name_len) ← be_u32 i
  let (i, name) ← takeN name_len i
  let (i, _fill_bytes) ← pcond (decide (name_len % 4 ≠ 0)) (takeN (4 - name_len % 4)) i
  .ok (i, { handle := dir_handle, name_vec := name })

structure Nfs3RequestMkdir where
  handle : Nfs3Handle
  name_vec : Bytes
deriving DecidableEq, Repr

def parse_nfs3_request_mkdir (i : Bytes) : Except NErr (Bytes × Nfs3RequestMkdir) := do
  let (i, dir_handle) ← parse_nfs3_handle i
  let (i, name_len) ← be_u32 i
  let (i, name) ← takeN name_len i
  let (i, _fill_bytes) ← pcond (decide (name_len % 4 ≠ 0)) (takeN (4 - name_len % 4)) i
  let (i, _attributes) ← rest i
  .ok (i, { handle := dir_handle, name_vec := name })

structure Nfs3RequestRename where
  from_handle : Nfs3Handle
  from_name_vec : Bytes
  to_handle : Nfs3Handle
  to_name_vec : Bytes
deriving DecidableEq, Repr

def parse_nfs3_request_rename (i : Bytes) : Except NErr (Bytes × Nfs3RequestRename) := do
  let (i, from_handle) ← parse_nfs3_handle i
  let (i, from_name_len) ← be_u32 i
  let (i, from_name) ← takeN from_name_len i
  let (i, _from_fill_bytes) ←
    pcond (decide (from_name_len % 4 ≠ 0)) (takeN (4 - from_name_len % 4)) i
  let (i, to_handle) ← parse_nfs3_handle i
  let (i, to_name_len) ← be_u32 i
  let (i, to_name) ← takeN to_name_len i
  let (i, _to_fill_bytes) ← rest i
  .ok (i, { from_handle := from_handle, from_name_vec := from_name,
            to_handle := to_handle, to_name_vec := to_name })

structure Nfs3RequestGetAttr where
  handle : Nfs3Handle
deriving DecidableEq, Repr

def parse_nfs3_request_getattr (i : Bytes) : Except NErr (Bytes × Nfs3RequestGetAttr) := do
  let (i, handle) ← parse_nfs3_handle i
  .ok (i, { handle := handle })

structure Nfs3RequestAccess where
  handle : Nfs3Handle
  check_access : Nat
deriving DecidableEq, Repr

def parse_nfs3_request_access (i : Bytes) : Except NErr (Bytes × Nfs3RequestAccess) := do
  let (i, handle) ← parse_nfs3_handle i
  let (i, check_access) ← be_u32 i
  .ok (i, { handle := handle, check_access := check_access })

structure Nfs3RequestCommit where
  handle : Nfs3Handle
deriving DecidableEq, Repr

def parse_nfs3_request_commit (i : Bytes) : Except NErr (Bytes × Nfs3RequestCommit) := do
  let (i, handle) ← parse_nfs3_handle i
  let (i, _offset) ← be_u64 i
  let (i, _count) ← be_u32 i
  .ok (i, { handle := handle })

structure Nfs3RequestRead where
  handle : Nfs3Handle
  offset : Nat
deriving DecidableEq, Repr

def parse_nfs3_request_read (i : Bytes) : Except NErr (Bytes × Nfs3RequestRead) := do
  let (i, handle) ← parse_nfs3_handle i
  let (i, offset) ← be_u64 i
  let (i, _count) ← be_u32 i
  .ok (i, { handle := handle, offset := offset })

structure Nfs3RequestLookup where
  handle : Nfs3Handle
  name_vec : Bytes
deriving DecidableEq, Repr

def parse_nfs3_request_lookup (i : Bytes) : Except NErr (Bytes × Nfs3RequestLookup) := do
  let (i, handle) ← parse_nfs3_handle i
  let (i, name_len) ← be_u32 i
  let (i, name_contents) ← takeN name_len i
  let (i, _name_padding) ← rest i
  .ok (i, { handle := handle, name_vec := name_contents })

structure Nfs3ResponseReaddirplusEntryC where
  name_vec : Bytes
  handle : Option Nfs3Handle
deriving DecidableEq, Repr

def parse_nfs3_response_readdirplus_entry (i : Bytes) : Except NErr (Bytes × Nfs3ResponseReaddirplusEntryC) := do
  let (i, _file_id) ← be_u64 i
  let (i, name_len) ← be_u32 i
  let (i, name_content) ← takeN name_len i
  let (i, _fill_bytes) ← pcond (decide (name_len % 4 ≠ 0)) (takeN (4 - name_len % 4)) i
  let (i, _cookie) ← takeN 8 i
  let (i, attr_value_follows) ← verify be_u32 (fun v => decide (v ≤ 1)) i
  let (i, _attr) ← pcond (decide (attr_value_follows = 1)) (takeN 84) i
  let (i, handle_value_follows) ← verify be_u32 (fun v => decide (v ≤ 1)) i
  let (i, handle) ← pcond (decide (handle_value_follows = 1)) parse_nfs3_handle i
  .ok (i, { name_vec := name_content, handle := handle })

structure Nfs3ResponseReaddirplusEntry where
  entry : Option Nfs3ResponseReaddirplusEntryC
deriving DecidableEq, Repr

def parse_nfs3_response_readdirplus_entry_cond (i : Bytes) : Except NErr (Bytes × Nfs3ResponseReaddirplusEntry) := do
  let (i, value_follows) ← verify be_u32 (fun v => decide (v ≤ 1)) i
  let (i, entry) ← pcond (decide (value_follows = 1)) parse_nfs3_response_readdirplus_entry i
  .ok (i, { entry := entry })

structure Nfs3ResponseReaddirplus where
  status : Nat
  data : Bytes
deriving DecidableEq, Repr

def parse_nfs3_response_readdirplus (i : Bytes) : Except NErr (Bytes × Nfs3ResponseReaddirplus) := do
  let (i, status) ← be_u32 i
  let (i, dir_attr_follows) ← verify be_u32 (fun v => decide (v ≤ 1)) i
  let (i, _dir_attr) ← pcond (decide (dir_attr_follows = 1)) (takeN 84) i
  let (i, _verifier) ← takeN 8 i
  let (i, data) ← rest i
  .ok (i, { status := status, data := data })

def many0_nfs3_response_readdirplus_entries (i : Bytes) :
    IResult (List Nfs3ResponseReaddirplusEntry) :=
  many0 (completeP parse_nfs3_response_readdirplus_entry_cond) i

structure Nfs3RequestReaddirplus where
  handle : Nfs3Handle
  cookie : Nat
  verifier : Bytes
  dircount : Nat
  maxcount : Nat
deriving DecidableEq, Repr

def parse_nfs3_request_readdirplus (i : Bytes) : Except NErr (Bytes × Nfs3RequestReaddirplus) := do
  let (i, handle) ← parse_nfs3_handle i
  let (i, cookie) ← be_u32 i
  let (i, verifier) ← takeN 8 i
  let (i, dircount) ← be_u32 i
  let (i, maxcount) ← be_u32 i
  .ok (i, { handle := handle, cookie := cookie, verifier := verifier,
            dircount := dircount, maxcount := maxcount })

structure Nfs3RequestWrite where
  handle : Nfs3Handle
  offset : Nat
  count : Nat
  stable : Nat
  file_len : Nat
  file_data : Bytes
deriving DecidableEq, Repr

/-- Complete data expected (`parse_nfs3_data_complete` in the source). -/
def parse_nfs3_data_complete (i : Bytes) (file_len fill_bytes : Nat) : Except NErr (Bytes × Bytes) := do
  let (i, file_data) ← takeN file_len i
  let (i, _) ← pcond (decide (fill_bytes > 0)) (takeN fill_bytes) i
  .ok (i, file_data)

/-- Partial data: all of `file_len` is present, but only as many fill bytes
as actually remain are skipped (the source's second data strategy). -/
def parse_nfs3_data_partial (i : Bytes) (file_len fill_bytes : Nat) : Except NErr (Bytes × Bytes) := do
  let (i, file_data) ← takeN file_len i
  let fb := min fill_bytes i.length
  let (i, _) ← pcond (decide (fb > 0)) (takeN fb) i
  .ok (i, file_data)

def parse_nfs3_request_write (i : Bytes) (complete : Bool) : Except NErr (Bytes × Nfs3RequestWrite) := do
  let (i, handle) ← parse_nfs3_handle i
  let (i, offset) ← be_u64 i
  let (i, count) ← be_u32 i
  let (i, stable) ← verify be_u32 (fun v => decide (v ≤ 2)) i
  let (i, file_len) ← verify be_u32 (fun v => decide (v ≤ count)) i
  let fill_bytes := if file_len % 4 ≠ 0 then 4 - file_len % 4 else 0
  let (i, file_data) ←
    if complete then
      parse_nfs3_data_complete i file_len fill_bytes
    else if file_len ≤ i.length then
      parse_nfs3_data_partial i file_len fill_bytes
    else
      rest i
  .ok (i, { handle := handle, offset := offset, count := count, stable := stable,
            file_len := file_len, file_data := file_data })

structure NfsReplyRead where
  status : Nat
  attr_follows : Nat
  attr_blob : Bytes
  count : Nat
  eof : Bool
  data_len : Nat
  data : Bytes
deriving DecidableEq, Repr

def parse_nfs3_reply_read (i : Bytes) (complete : Bool) : Except NErr (Bytes × NfsReplyRead) := do
  let (i, status) ← be_u32 i
  let (i, attr_follows) ← verify be_u32 (fun v => decide (v ≤ 1)) i
  let (i, attr_blob) ← takeN 84 i
  let (i, count) ← be_u32 i
  let (i, eof) ← verify be_u32 (fun v => decide (v ≤ 1)) i
  let (i, data_len) ← verify be_u32 (fun v => decide (v ≤ count)) i
  let fill_bytes := if data_len % 4 ≠ 0 then 4 - data_len % 4 else 0
  let (i, data) ←
    if complete then
      parse_nfs3_data_complete i data_len fill_bytes
    else if data_len ≤ i.length then
      parse_nfs3_data_partial i data_len fill_bytes
    else
      rest i
  .ok (i, { status := status, attr_follows := attr_follows, attr_blob := attr_blob,
            count := count, eof := eof != 0, data_len := data_len, data := data })

/-! ### Specification-side helpers: encoders and the padding rule -/

/-- Big-endian 4-byte encoding of `n < 2^32`. -/
def be32enc (n : Nat) : Bytes :=
  [n / 16777216 % 256, n / 65536 % 256, n / 256 % 256, n % 256]

/-- Big-endian 8-byte encoding of `n < 2^64`. -/
def be64enc (n : Nat) : Bytes :=
  [n / 72057594037927936 % 256, n / 281474976710656 % 256, n / 1099511627776 % 256,
   n / 4294967296 % 256, n / 16777216 % 256, n / 65536 % 256, n / 256 % 256, n % 256]

/-- Wire encoding of a handle: 4-byte big-endian length, then the body bytes. -/
def encode_handle (h : Nfs3Handle) : Bytes := be32enc h.len ++ h.value

/-- The padding-rule fill amount for a field of declared length `L`,
exactly as computed inline by the source parsers. -/
def fillLen (L : Nat) : Nat := if L % 4 ≠ 0 then 4 - L % 4 else 0

/-! ### Reduction lemmas for the embedding -/

@[simp] theorem ok_bind {α β : Type} (x : α) (f : α → Except NErr β) :
    (Except.ok x : Except NErr α) >>= f = f x := rfl

@[simp] theorem error_bind {α β : Type} (e : NErr) (f : α → Except NErr β) :
    (Except.error e : Except NErr α) >>= f = Except.error e := rfl

theorem be_u32_enc (n : Nat) (r : Bytes) (h : n < 4294967296) :
    be_u32 (be32enc n ++ r) = .ok (r, n) := by
  simp only [be32enc, List.cons_append, List.nil_append, be_u32]
  have hn : ((n / 16777216 % 256 * 256 + n / 65536 % 256) * 256 + n / 256 % 256) * 256
      + n % 256 = n := by omega
  rw [hn]

theorem be_u64_enc (n : Nat) (r : Bytes) (h : n < 18446744073709551616) :
    be_u64 (be64enc n ++ r) = .ok (r, n) := by
  simp only [be64enc, List.cons_append, List.nil_append, be_u64]
  have hn : ((((((n / 72057594037927936 % 256 * 256 + n / 281474976710656 % 256) * 256
      + n / 1099511627776 % 256) * 256 + n / 4294967296 % 256) * 256 + n / 16777216 % 256)
      * 256 + n / 65536 % 256) * 256 + n / 256 % 256) * 256 + n % 256 = n := by omega
  rw [hn]

theorem be_u32_short (i : Bytes) (h : i.length < 4) : be_u32 i = .error .incomplete := by
  unfold be_u32
  split
  · rename_i b0 b1 b2 b3 r
    simp at h
    omega
  · rfl

theorem takeN_ge (n : Nat) (i : Bytes) (h : n ≤ i.length) :
    takeN n i = .ok (i.drop n, i.take n) := by
  unfold takeN
  rw [if_pos h]

theorem takeN_short (n : Nat) (i : Bytes) (h : i.length < n) :
    takeN n i = .error .incomplete := by
  unfold takeN
  rw [if_neg (by omega)]

theorem takeN_append (a r : Bytes) : takeN a.length (a ++ r) = .ok (r, a) := by
  unfold takeN
  rw [if_pos (by simp)]
  rw [List.drop_left, List.take_left]

theorem takeN_all (a : Bytes) : takeN a.length a = .ok ([], a) := by
  have := takeN_append a []
  simpa using this

theorem verify_u32_enc (f : Nat → Bool) (n : Nat) (r : Bytes) (h : n < 4294967296) :
    verify be_u32 f (be32enc n ++ r) =
      if f n then .ok (r, n) else .error (.error .Verify) := by
  simp [verify, be_u32_enc n r h]

theorem parse_handle_enc (hb r : Bytes) (h : hb.length < 4294967296) :
    parse_nfs3_handle (be32enc hb.length ++ (hb ++ r)) =
      .ok (r, { len := hb.length, value := hb }) := by
  simp [parse_nfs3_handle, be_u32_enc hb.length (hb ++ r) h, takeN_append]

theorem pcond_fill (L : Nat) (pad tail : Bytes) (hpad : pad.length = fillLen L) :
    pcond (decide (L % 4 ≠ 0)) (takeN (4 - L % 4)) (pad ++ tail) =
      .ok (tail, if L % 4 ≠ 0 then some pad else none) := by
  by_cases h : L % 4 = 0
  · have hp : pad = [] := by
      simpa [fillLen, h] using hpad
    subst hp
    simp [pcond, h]
  · have hp : pad.length = 4 - L % 4 := by
      simp [fillLen, h] at hpad
      exact hpad
    simp [pcond, h, ← hp, takeN_append]

theorem pcond_takeAll (n : Nat) (pad : Bytes) (hpad : pad.length = n) :
    pcond (decide (n > 0)) (takeN n) pad =
      .ok ([], if n > 0 then some pad else none) := by
  subst hpad
  by_cases h : 0 < pad.length
  · simp [pcond, h, takeN_all]
  · have hp : pad = [] := by
      rw [← List.length_eq_zero]
      omega
    subst hp
    simp [pcond]

theorem data_complete_exact (data pad : Bytes) (n : Nat) (hp : pad.length = n) :
    parse_nfs3_data_complete (data ++ pad) data.length n = .ok ([], data) := by
  simp [parse_nfs3_data_complete, takeN_append, pcond_takeAll n pad hp]

theorem data_complete_short (i : Bytes) (n fill : Nat) (h : i.length < n + fill) :
    parse_nfs3_data_complete i n fill = .error .incomplete := by
  unfold parse_nfs3_data_complete
  by_cases hn : n ≤ i.length
  · rw [takeN_ge n i hn, ok_bind]
    have hfill : 0 < fill := by omega
    have hlt : (i.drop n).length < fill := by
      simp [List.length_drop]
      omega
    simp [pcond, hfill, takeN_short fill _ hlt]
  · rw [takeN_short n i (by omega)]
    rfl

theorem data_partial_general (i : Bytes) (n fill : Nat) (h : n ≤ i.length) :
    parse_nfs3_data_partial i n fill =
      .ok ((i.drop n).drop (min fill (i.length - n)), i.take n) := by
  unfold parse_nfs3_data_partial
  rw [takeN_ge n i h]
  simp only [ok_bind]
  have hdl : (i.drop n).length = i.length - n := by simp
  rw [hdl]
  by_cases hf : 0 < min fill (i.length - n)
  · have hle : min fill (i.length - n) ≤ (i.drop n).length := by
      rw [hdl]
      exact Nat.min_le_right _ _
    simp [pcond, hf, takeN_ge _ _ hle]
  · have h0 : min fill (i.length - n) = 0 := by omega
    simp [pcond, h0]

/-! ### Claim theorems -/

/-- Claim C8: for every handle whose byte length fits the 4-byte length field,
decoding the encoding (4-byte big-endian length then exactly that many body
bytes) yields the handle back with an empty remainder. -/
theorem C8_handle_roundtrip (h : Nfs3Handle) (hlen : h.len = h.value.length)
    (hfits : h.value.length < 4294967296) :
    parse_nfs3_handle (encode_handle h) = .ok ([], h) := by
  obtain ⟨len, val⟩ := h
  simp only at hlen
  subst hlen
  have hmain := parse_handle_enc val [] hfits
  simpa [encode_handle] using hmain

/-- Witness for C8 at the spec's own scenario: length 4, bytes 1,2,3,4. -/
theorem C8_handle_roundtrip_witness :
    parse_nfs3_handle (encode_handle { len := 4, value := [1, 2, 3, 4] }) =
      .ok ([], { len := 4, value := [1, 2, 3, 4] }) :=
  C8_handle_roundtrip { len := 4, value := [1, 2, 3, 4] } (by norm_num) (by norm_num)

/-- Claim C6: in a CREATE reply the optional-handle field obeys the
optional-field contract: flag 0 yields an absent handle consuming no bytes
beyond the flag, flag 1 decodes a present handle, and any flag greater
than 1 fails with a Verify (ConstraintViolation) error. -/
theorem C6_response_create_optional_handle :
    (∀ (s : Nat) (tail : Bytes), s < 4294967296 →
      parse_nfs3_response_create (be32enc s ++ (be32enc 0 ++ tail)) =
        .ok (tail, { status := s, handle := none })) ∧
    (∀ (s : Nat) (hb tail : Bytes), s < 4294967296 → hb.length < 4294967296 →
      parse_nfs3_response_create
          (be32enc s ++ (be32enc 1 ++ (be32enc hb.length ++ (hb ++ tail)))) =
        .ok (tail, { status := s, handle := some { len := hb.length, value := hb } })) ∧
    (∀ (s f : Nat) (tail : Bytes), s < 4294967296 → 2 ≤ f → f < 4294967296 →
      parse_nfs3_response_create (be32enc s ++ (be32enc f ++ tail)) =
        .error (.error .Verify)) := by
  refine ⟨?_, ?_, ?_⟩
  · intro s tail hs
    simp only [parse_nfs3_response_create]
    rw [be_u32_enc s _ hs]
    simp only [ok_bind]
    rw [verify_u32_enc _ 0 _ (by norm_num)]
    simp [pcond]
  · intro s hb tail hs hh
    simp only [parse_nfs3_response_create]
    rw [be_u32_enc s _ hs]
    simp only [ok_bind]
    rw [verify_u32_enc _ 1 _ (by norm_num)]
    simp [pcond, parse_handle_enc hb tail hh]
  · intro s f tail hs hf2 hf
    have hnot : ¬ f ≤ 1 := by omega
    simp only [parse_nfs3_response_create]
    rw [be_u32_enc s _ hs]
    simp only [ok_bind]
    rw [verify_u32_enc _ f _ hf]
    simp [hnot]

/-- Witness for C6 at concrete inputs: flag 0 (absent), flag 1 (present),
flag 2 (ConstraintViolation). -/
theorem C6_response_create_optional_handle_witness :
    parse_nfs3_response_create (be32enc 0 ++ (be32enc 0 ++ [7])) =
      .ok ([7], { status := 0, handle := none }) ∧
    parse_nfs3_response_create
        (be32enc 0 ++ (be32enc 1 ++ (be32enc 2 ++ ([5, 6] ++ [])))) =
      .ok ([], { status := 0, handle := some { len := 2, value := [5, 6] } }) ∧
    parse_nfs3_response_create (be32enc 0 ++ (be32enc 2 ++ [])) =
      .error (.error .Verify) :=
  ⟨C6_response_create_optional_handle.1 0 [7] (by norm_num),
   by
     have hmain := C6_response_create_optional_handle.2.1 0 [5, 6] []
       (by norm_num) (by norm_num)
     simpa using hmain,
   C6_response_create_optional_handle.2.2 0 2 [] (by norm_num) (by norm_num) (by norm_num)⟩

/-- A READDIRPLUS entry whose attribute and handle flags are 0 decodes to
its name with no handle, resuming exactly after the second flag. -/
theorem entry_parse_enc (fid : Nat) (name pad cookie tail : Bytes)
    (hf : fid < 18446744073709551616) (h2 : name.length < 4294967296)
    (hp : pad.length = fillLen name.length) (hc : cookie.length = 8) :
    parse_nfs3_response_readdirplus_entry
        (be64enc fid ++ (be32enc name.length ++ (name ++ (pad ++ (cookie ++
          (be32enc 0 ++ (be32enc 0 ++ tail))))))) =
      .ok (tail, { name_vec := name, handle := none }) := by
  simp only [parse_nfs3_response_readdirplus_entry]
  rw [be_u64_enc fid _ hf]
  simp only [ok_bind]
  rw [be_u32_enc name.length _ h2]
  simp only [ok_bind]
  rw [takeN_append]
  simp only [ok_bind]
  rw [pcond_fill name.length pad _ hp]
  simp only [ok_bind]
  rw [← hc, takeN_append]
  simp only [ok_bind]
  rw [verify_u32_enc _ 0 _ (by norm_num)]
  simp only [decide_eq_true_eq, Nat.zero_le, if_true, ok_bind]
  simp [pcond]
  rw [verify_u32_enc _ 0 _ (by norm_num)]
  simp [pcond]

/-- Claim C7: in the decoders applying the padding rule to a name field
(RMDIR, MKDIR, RENAME source name, READDIRPLUS entry name), a length-field
plus name plus padding segment of declared length L consumes exactly
`4 + L + ((4 - L % 4) % 4)` bytes, always a multiple of 4: each decoder,
fed padding of exactly `fillLen L` bytes after the name, resumes parsing
exactly at the following field, and `fillLen L = (4 - L % 4) % 4` with
`(4 + L + (4 - L % 4) % 4) % 4 = 0`. -/
theorem C7_padding_rule_consumption :
    (∀ (hb name pad tail : Bytes), hb.length < 4294967296 → name.length < 4294967296 →
      pad.length = fillLen name.length →
      parse_nfs3_request_rmdir
          (be32enc hb.length ++ (hb ++ (be32enc name.length ++ (name ++ (pad ++ tail))))) =
        .ok (tail, { handle := ⟨hb.length, hb⟩, name_vec := name })) ∧
    (∀ (hb name pad attrs : Bytes), hb.length < 4294967296 → name.length < 4294967296 →
      pad.length = fillLen name.length →
      parse_nfs3_request_mkdir
          (be32enc hb.length ++ (hb ++ (be32enc name.length ++ (name ++ (pad ++ attrs))))) =
        .ok ([], { handle := ⟨hb.length, hb⟩, name_vec := name })) ∧
    (∀ (hb1 name1 pad1 hb2 name2 tail : Bytes),
      hb1.length < 4294967296 → name1.length < 4294967296 → hb2.length < 4294967296 →
      name2.length < 4294967296 → pad1.length = fillLen name1.length →
      parse_nfs3_request_rename
          (be32enc hb1.length ++ (hb1 ++ (be32enc name1.length ++ (name1 ++ (pad1 ++
            (be32enc hb2.length ++ (hb2 ++ (be32enc name2.length ++ (name2 ++ tail))))))))) =
        .ok ([], { from_handle := ⟨hb1.length, hb1⟩, from_name_vec := name1,
                   to_handle := ⟨hb2.length, hb2⟩, to_name_vec := name2 })) ∧
    (∀ (fid : Nat) (name pad cookie tail : Bytes), fid < 18446744073709551616 →
      name.length < 4294967296 → pad.length = fillLen name.length → cookie.length = 8 →
      parse_nfs3_response_readdirplus_entry
          (be64enc fid ++ (be32enc name.length ++ (name ++ (pad ++ (cookie ++
            (be32enc 0 ++ (be32enc 0 ++ tail))))))) =
        .ok (tail, { name_vec := name, handle := none })) ∧
    (∀ L : Nat, fillLen L = (4 - L % 4) % 4 ∧ (4 + L + (4 - L % 4) % 4) % 4 = 0) := by
  refine ⟨?_, ?_, ?_, ?_, ?_⟩
  · intro hb name pad tail h1 h2 hp
    simp only [parse_nfs3_request_rmdir]
    rw [parse_handle_enc hb _ h1]
    simp only [ok_bind]
    rw [be_u32_enc name.length _ h2]
    simp only [ok_bind]
    rw [takeN_append]
    simp only [ok_bind]
    rw [pcond_fill name.length pad tail hp]
    simp only [ok_bind]
  · intro hb name pad attrs h1 h2 hp
    simp only [parse_nfs3_request_mkdir]
    rw [parse_handle_enc hb _ h1]
    simp only [ok_bind]
    rw [be_u32_enc name.length _ h2]
    simp only [ok_bind]
    rw [takeN_append]
    simp only [ok_bind]
    rw [pcond_fill name.length pad attrs hp]
    simp only [ok_bind, rest]
  · intro hb1 name1 pad1 hb2 name2 tail h1 h2 h3 h4 hp
    simp only [parse_nfs3_request_rename]
    rw [parse_handle_enc hb1 _ h1]
    simp only [ok_bind]
    rw [be_u32_enc name1.length _ h2]
    simp only [ok_bind]
    rw [takeN_append]
    simp only [ok_bind]
    rw [pcond_fill name1.length pad1 _ hp]
    simp only [ok_bind]
    rw [parse_handle_enc hb2 _ h3]
    simp only [ok_bind]
    rw [be_u32_enc name2.length _ h4]
    simp only [ok_bind]
    rw [takeN_append]
    simp only [ok_bind, rest]
  · intro fid name pad cookie tail hf h2 hp hc
    exact entry_parse_enc fid name pad cookie tail hf h2 hp hc
  · intro L
    constructor
    · simp only [fillLen]
      split <;> omega
    · omega

/-- Witness for C7: RMDIR with a 3-byte name and 1 padding byte resumes at
the trailing bytes, and the consumed segment length 4 + 3 + 1 is a
multiple of 4. -/
theorem C7_padding_rule_consumption_witness :
    parse_nfs3_request_rmdir
        (be32enc 1 ++ ([8] ++ (be32enc 3 ++ ([65, 66, 67] ++ ([0] ++ [1, 2]))))) =
      .ok ([1, 2], { handle := ⟨1, [8]⟩, name_vec := [65, 66, 67] }) ∧
    fillLen 3 = (4 - 3 % 4) % 4 ∧ (4 + 3 + (4 - 3 % 4) % 4) % 4 = 0 := by
  refine ⟨?_, C7_padding_rule_consumption.2.2.2.2 3⟩
  have hmain := C7_padding_rule_consumption.1 [8] [65, 66, 67] [0] [1, 2]
    (by norm_num) (by norm_num) (by norm_num [fillLen])
  simpa using hmain

/-- Reduction of `parse_nfs3_request_write` on a well-formed preamble: the
result is the chosen data-extraction strategy applied to the bytes after
the preamble, wrapped into the record. -/
theorem write_preamble (hb : Bytes) (off cnt st fl : Nat) (tail : Bytes) (b : Bool)
    (h1 : hb.length < 4294967296) (h2 : off < 18446744073709551616)
    (h3 : cnt < 4294967296) (h4 : st ≤ 2) (h5 : fl ≤ cnt) :
    parse_nfs3_request_write
        (be32enc hb.length ++ (hb ++ (be64enc off ++ (be32enc cnt ++
          (be32enc st ++ (be32enc fl ++ tail)))))) b =
      ((if b = true then
          parse_nfs3_data_complete tail fl (if fl % 4 ≠ 0 then 4 - fl % 4 else 0)
        else if fl ≤ tail.length then
          parse_nfs3_data_partial tail fl (if fl % 4 ≠ 0 then 4 - fl % 4 else 0)
        else
          rest tail) >>= fun x =>
        match x with
        | (i, file_data) =>
          .ok (i, { handle := ⟨hb.length, hb⟩, offset := off, count := cnt,
                    stable := st, file_len := fl, file_data := file_data })) := by
  have h6a : st < 4294967296 := by omega
  have h6b : fl < 4294967296 := by omega
  simp only [parse_nfs3_request_write]
  simp only [parse_handle_enc hb _ h1, ok_bind]
  simp only [be_u64_enc off _ h2, ok_bind]
  simp only [be_u32_enc cnt _ h3, ok_bind]
  rw [verify_u32_enc _ st _ h6a]
  simp [h4]
  rw [verify_u32_enc _ fl _ h6b]
  simp [h5]
  split <;> (try split) <;> rfl

/-- Reduction of `parse_nfs3_reply_read` on a well-formed preamble. -/
theorem read_preamble (s af : Nat) (blob : Bytes) (cnt ev dl : Nat) (tail : Bytes) (b : Bool)
    (hs : s < 4294967296) (haf : af ≤ 1) (hblob : blob.length = 84)
    (hcnt : cnt < 4294967296) (hev : ev ≤ 1) (hdl : dl ≤ cnt) :
    parse_nfs3_reply_read
        (be32enc s ++ (be32enc af ++ (blob ++ (be32enc cnt ++
          (be32enc ev ++ (be32enc dl ++ tail)))))) b =
      ((if b = true then
          parse_nfs3_data_complete tail dl (if dl % 4 ≠ 0 then 4 - dl % 4 else 0)
        else if dl ≤ tail.length then
          parse_nfs3_data_partial tail dl (if dl % 4 ≠ 0 then 4 - dl % 4 else 0)
        else
          rest tail) >>= fun x =>
        match x with
        | (i, data) =>
          .ok (i, { status := s, attr_follows := af, attr_blob := blob, count := cnt,
                    eof := ev != 0, data_len := dl, data := data })) := by
  have h6a : af < 4294967296 := by omega
  have h6b : ev < 4294967296 := by omega
  have h6c : dl < 4294967296 := by omega
  simp only [parse_nfs3_reply_read]
  simp only [be_u32_enc s _ hs, ok_bind]
  rw [verify_u32_enc _ af _ h6a]
  simp [haf]
  rw [← hblob]
  simp only [takeN_append, ok_bind]
  simp only [be_u32_enc cnt _ hcnt, ok_bind]
  rw [verify_u32_enc _ ev _ h6b]
  simp [hev]
  rw [verify_u32_enc _ dl _ h6c]
  simp [hdl]
  split <;> (try split) <;> rfl

/-- The parsers' inline fill computation in the simp-normal ite orientation. -/
theorem fillLen_flip (L : Nat) : fillLen L = (if L % 4 = 0 then 0 else 4 - L % 4) := by
  unfold fillLen
  by_cases h : L % 4 = 0 <;> simp [h]

/-- Claim C1: `parse_nfs3_request_write` selects its payload strategy from
the `complete` flag and the available bytes: with `complete = true` and a
buffer holding exactly the declared data length plus its padding it
succeeds with empty remainder (and fails when the buffer is shorter than
that); with `complete = false` and fewer bytes than the declared data
length it returns the entire remaining buffer as payload, with empty
remainder, and does not error. -/
theorem C1_write_extraction_strategies :
    (∀ (hb : Bytes) (off cnt st : Nat) (data pad : Bytes),
      hb.length < 4294967296 → off < 18446744073709551616 → cnt < 4294967296 →
      st ≤ 2 → data.length ≤ cnt → pad.length = fillLen data.length →
      parse_nfs3_request_write
          (be32enc hb.length ++ (hb ++ (be64enc off ++ (be32enc cnt ++
            (be32enc st ++ (be32enc data.length ++ (data ++ pad))))))) true =
        .ok ([], { handle := ⟨hb.length, hb⟩, offset := off, count := cnt,
                   stable := st, file_len := data.length, file_data := data })) ∧
    (∀ (hb : Bytes) (off cnt st fl : Nat) (tail : Bytes),
      hb.length < 4294967296 → off < 18446744073709551616 → cnt < 4294967296 →
      st ≤ 2 → fl ≤ cnt → tail.length < fl + fillLen fl →
      parse_nfs3_request_write
          (be32enc hb.length ++ (hb ++ (be64enc off ++ (be32enc cnt ++
            (be32enc st ++ (be32enc fl ++ tail)))))) true = .error .incomplete) ∧
    (∀ (hb : Bytes) (off cnt st fl : Nat) (tail : Bytes),
      hb.length < 4294967296 → off < 18446744073709551616 → cnt < 4294967296 →
      st ≤ 2 → fl ≤ cnt → tail.length < fl →
      parse_nfs3_request_write
          (be32enc hb.length ++ (hb ++ (be64enc off ++ (be32enc cnt ++
            (be32enc st ++ (be32enc fl ++ tail)))))) false =
        .ok ([], { handle := ⟨hb.length, hb⟩, offset := off, count := cnt,
                   stable := st, file_len := fl, file_data := tail })) := by
  refine ⟨?_, ?_, ?_⟩
  · intro hb off cnt st data pad h1 h2 h3 h4 h5 hp
    rw [write_preamble hb off cnt st data.length (data ++ pad) true h1 h2 h3 h4 h5]
    have hp2 : pad.length = (if data.length % 4 = 0 then 0 else 4 - data.length % 4) := by
      rw [hp, fillLen_flip]
    simp [data_complete_exact data pad _ hp2]
  · intro hb off cnt st fl tail h1 h2 h3 h4 h5 h6
    rw [write_preamble hb off cnt st fl tail true h1 h2 h3 h4 h5]
    have h62 : tail.length < fl + (if fl % 4 = 0 then 0 else 4 - fl % 4) := by
      rw [← fillLen_flip]
      exact h6
    simp [data_complete_short tail fl _ h62]
  · intro hb off cnt st fl tail h1 h2 h3 h4 h5 h6
    rw [write_preamble hb off cnt st fl tail false h1 h2 h3 h4 h5]
    have hnot : ¬ fl ≤ tail.length := by omega
    simp [hnot, rest]

/-- Witness for C1: a concrete WRITE request exercised with all three
scenarios of the claim. -/
theorem C1_write_extraction_strategies_witness :
    parse_nfs3_request_write
        (be32enc 1 ++ ([9] ++ (be64enc 0 ++ (be32enc 4 ++
          (be32enc 0 ++ (be32enc 3 ++ ([5, 6, 7] ++ [0]))))))) true =
      .ok ([], { handle := ⟨1, [9]⟩, offset := 0, count := 4,
                 stable := 0, file_len := 3, file_data := [5, 6, 7] }) ∧
    parse_nfs3_request_write
        (be32enc 1 ++ ([9] ++ (be64enc 0 ++ (be32enc 4 ++
          (be32enc 0 ++ (be32enc 3 ++ [5, 6, 7])))))) true = .error .incomplete ∧
    parse_nfs3_request_write
        (be32enc 1 ++ ([9] ++ (be64enc 0 ++ (be32enc 4 ++
          (be32enc 0 ++ (be32enc 3 ++ [5, 6])))))) false =
      .ok ([], { handle := ⟨1, [9]⟩, offset := 0, count := 4,
                 stable := 0, file_len := 3, file_data := [5, 6] }) := by
  refine ⟨?_, ?_, ?_⟩
  · have hmain := C1_write_extraction_strategies.1 [9] 0 4 0 [5, 6, 7] [0]
      (by norm_num) (by norm_num) (by norm_num) (by norm_num) (by norm_num) rfl
    simpa using hmain
  · have hmain := C1_write_extraction_strategies.2.1 [9] 0 4 0 3 [5, 6, 7]
      (by norm_num) (by norm_num) (by norm_num) (by norm_num) (by norm_num)
      (by norm_num [fillLen])
    simpa using hmain
  · have hmain := C1_write_extraction_strategies.2.2 [9] 0 4 0 3 [5, 6]
      (by norm_num) (by norm_num) (by norm_num) (by norm_num) (by norm_num) (by norm_num)
    simpa using hmain

/-- Claim C2: with `complete = false` and at least the declared data length
available after the preamble, `parse_nfs3_request_write` (and
`parse_nfs3_reply_read` for its trailing data) takes exactly the declared
length as payload and skips `min(padding, remaining)` padding bytes,
succeeding even when padding bytes are missing at the fragment boundary. -/
theorem C2_partial_fill_handling :
    (∀ (hb : Bytes) (off cnt st fl : Nat) (tail : Bytes),
      hb.length < 4294967296 → off < 18446744073709551616 → cnt < 4294967296 →
      st ≤ 2 → fl ≤ cnt → fl ≤ tail.length →
      parse_nfs3_request_write
          (be32enc hb.length ++ (hb ++ (be64enc off ++ (be32enc cnt ++
            (be32enc st ++ (be32enc fl ++ tail)))))) false =
        .ok ((tail.drop fl).drop (min (fillLen fl) (tail.length - fl)),
             { handle := ⟨hb.length, hb⟩, offset := off, count := cnt,
               stable := st, file_len := fl, file_data := tail.take fl })) ∧
    (∀ (s af : Nat) (blob : Bytes) (cnt ev dl : Nat) (tail : Bytes),
      s < 4294967296 → af ≤ 1 → blob.length = 84 → cnt < 4294967296 → ev ≤ 1 →
      dl ≤ cnt → dl ≤ tail.length →
      parse_nfs3_reply_read
          (be32enc s ++ (be32enc af ++ (blob ++ (be32enc cnt ++
            (be32enc ev ++ (be32enc dl ++ tail)))))) false =
        .ok ((tail.drop dl).drop (min (fillLen dl) (tail.length - dl)),
             { status := s, attr_follows := af, attr_blob := blob, count := cnt,
               eof := ev != 0, data_len := dl, data := tail.take dl })) := by
  constructor
  · intro hb off cnt st fl tail h1 h2 h3 h4 h5 hlen
    rw [write_preamble hb off cnt st fl tail false h1 h2 h3 h4 h5]
    simp [hlen, fillLen_flip,
      data_partial_general tail fl (if fl % 4 = 0 then 0 else 4 - fl % 4) hlen]
  · intro s af blob cnt ev dl tail hs haf hblob hcnt hev hdl hlen
    rw [read_preamble s af blob cnt ev dl tail false hs haf hblob hcnt hev hdl]
    simp [hlen, fillLen_flip,
      data_partial_general tail dl (if dl % 4 = 0 then 0 else 4 - dl % 4) hlen]

/-- Witness for C2: a WRITE fragment with all padding missing, and a READ
reply fragment with its padding partially present. -/
theorem C2_partial_fill_handling_witness :
    parse_nfs3_request_write
        (be32enc 1 ++ ([9] ++ (be64enc 0 ++ (be32enc 4 ++
          (be32enc 0 ++ (be32enc 3 ++ [5, 6, 7])))))) false =
      .ok ([], { handle := ⟨1, [9]⟩, offset := 0, count := 4,
                 stable := 0, file_len := 3, file_data := [5, 6, 7] }) ∧
    parse_nfs3_reply_read
        (be32enc 0 ++ (be32enc 0 ++ (List.replicate 84 2 ++ (be32enc 4 ++
          (be32enc 1 ++ (be32enc 3 ++ [5, 6, 7, 0, 8])))))) false =
      .ok ([8], { status := 0, attr_follows := 0, attr_blob := List.replicate 84 2,
                  count := 4, eof := true, data_len := 3, data := [5, 6, 7] }) := by
  constructor
  · have hmain := C2_partial_fill_handling.1 [9] 0 4 0 3 [5, 6, 7]
      (by norm_num) (by norm_num) (by norm_num) (by norm_num) (by norm_num) (by norm_num)
    simpa [fillLen] using hmain
  · have hmain := C2_partial_fill_handling.2 0 0 (List.replicate 84 2) 4 1 3 [5, 6, 7, 0, 8]
      (by norm_num) (by norm_num) (by simp) (by norm_num) (by norm_num) (by norm_num)
      (by norm_num)
    simpa [fillLen] using hmain

/-- Claim C3: `parse_nfs3_request_write` fails with a Verify
(ConstraintViolation) error — never succeeds — whenever the decoded
stability flag is outside 0..2 or the declared data length exceeds the
declared count; when both constraints hold the preamble decode proceeds
(with `complete = false` the parse succeeds outright). -/
theorem C3_write_constraint_violations :
    (∀ (hb : Bytes) (off cnt st fl : Nat) (tail : Bytes) (b : Bool),
      hb.length < 4294967296 → off < 18446744073709551616 → cnt < 4294967296 →
      3 ≤ st → st < 4294967296 → fl < 4294967296 →
      parse_nfs3_request_write
          (be32enc hb.length ++ (hb ++ (be64enc off ++ (be32enc cnt ++
            (be32enc st ++ (be32enc fl ++ tail)))))) b = .error (.error .Verify)) ∧
    (∀ (hb : Bytes) (off cnt st fl : Nat) (tail : Bytes) (b : Bool),
      hb.length < 4294967296 → off < 18446744073709551616 → cnt < 4294967296 →
      st ≤ 2 → cnt < fl → fl < 4294967296 →
      parse_nfs3_request_write
          (be32enc hb.length ++ (hb ++ (be64enc off ++ (be32enc cnt ++
            (be32enc st ++ (be32enc fl ++ tail)))))) b = .error (.error .Verify)) ∧
    (∀ (hb : Bytes) (off cnt st fl : Nat) (tail : Bytes),
      hb.length < 4294967296 → off < 18446744073709551616 → cnt < 4294967296 →
      st ≤ 2 → fl ≤ cnt →
      ∃ r v, parse_nfs3_request_write
          (be32enc hb.length ++ (hb ++ (be64enc off ++ (be32enc cnt ++
            (be32enc st ++ (be32enc fl ++ tail)))))) false = .ok (r, v)) := by
  refine ⟨?_, ?_, ?_⟩
  · intro hb off cnt st fl tail b h1 h2 h3 h4 h5 h6
    have hnot : ¬ st ≤ 2 := by omega
    simp only [parse_nfs3_request_write]
    simp only [parse_handle_enc hb _ h1, ok_bind]
    simp only [be_u64_enc off _ h2, ok_bind]
    simp only [be_u32_enc cnt _ h3, ok_bind]
    rw [verify_u32_enc _ st _ h5]
    simp [hnot]
  · intro hb off cnt st fl tail b h1 h2 h3 h4 h5 h6
    have hnot : ¬ fl ≤ cnt := by omega
    simp only [parse_nfs3_request_write]
    simp only [parse_handle_enc hb _ h1, ok_bind]
    simp only [be_u64_enc off _ h2, ok_bind]
    simp only [be_u32_enc cnt _ h3, ok_bind]
    rw [verify_u32_enc _ st _ (by omega)]
    simp [h4]
    rw [verify_u32_enc _ fl _ h6]
    simp [hnot]
  · intro hb off cnt st fl tail h1 h2 h3 h4 h5
    rw [write_preamble hb off cnt st fl tail false h1 h2 h3 h4 h5]
    by_cases hlen : fl ≤ tail.length
    · exact ⟨(tail.drop fl).drop (min (if fl % 4 = 0 then 0 else 4 - fl % 4)
          (tail.length - fl)),
        { handle := ⟨hb.length, hb⟩, offset := off, count := cnt, stable := st,
          file_len := fl, file_data := tail.take fl },
        by simp [hlen, data_partial_general tail fl (if fl % 4 = 0 then 0 else 4 - fl % 4) hlen]⟩
    · exact ⟨[],
        { handle := ⟨hb.length, hb⟩, offset := off, count := cnt, stable := st,
          file_len := fl, file_data := tail },
        by simp [hlen, rest]⟩

/-- Witness for C3: stability 3 is rejected, data length 5 over count 4 is
rejected, and a write with stability 1 and length within count parses. -/
theorem C3_write_constraint_violations_witness :
    parse_nfs3_request_write
        (be32enc 1 ++ ([9] ++ (be64enc 0 ++ (be32enc 4 ++
          (be32enc 3 ++ (be32enc 0 ++ [])))))) true = .error (.error .Verify) ∧
    parse_nfs3_request_write
        (be32enc 1 ++ ([9] ++ (be64enc 0 ++ (be32enc 4 ++
          (be32enc 1 ++ (be32enc 5 ++ [])))))) false = .error (.error .Verify) ∧
    ∃ r v, parse_nfs3_request_write
        (be32enc 1 ++ ([9] ++ (be64enc 0 ++ (be32enc 4 ++
          (be32enc 1 ++ (be32enc 2 ++ [7, 7])))))) false = .ok (r, v) := by
  refine ⟨?_, ?_, ?_⟩
  · have hmain := C3_write_constraint_violations.1 [9] 0 4 3 0 [] true
      (by norm_num) (by norm_num) (by norm_num) (by norm_num) (by norm_num) (by norm_num)
    simpa using hmain
  · have hmain := C3_write_constraint_violations.2.1 [9] 0 4 1 5 [] false
      (by norm_num) (by norm_num) (by norm_num) (by norm_num) (by norm_num) (by norm_num)
    simpa using hmain
  · have hmain := C3_write_constraint_violations.2.2 [9] 0 4 1 2 [7, 7]
      (by norm_num) (by norm_num) (by norm_num) (by norm_num) (by norm_num)
    simpa using hmain

/-- Claim C10: `parse_nfs3_reply_read` consumes exactly 84 bytes as the
attribute blob immediately after the attr-follows flag whether the flag is
0 or 1 (the blob is not gated by the flag), and fails when fewer than 84
bytes remain after the flag. -/
theorem C10_read_attr_blob_unconditional :
    (∀ (s af : Nat) (blob : Bytes) (cnt ev : Nat) (data pad : Bytes),
      s < 4294967296 → af ≤ 1 → blob.length = 84 → cnt < 4294967296 → ev ≤ 1 →
      data.length ≤ cnt → pad.length = fillLen data.length →
      parse_nfs3_reply_read
          (be32enc s ++ (be32enc af ++ (blob ++ (be32enc cnt ++
            (be32enc ev ++ (be32enc data.length ++ (data ++ pad))))))) true =
        .ok ([], { status := s, attr_follows := af, attr_blob := blob, count := cnt,
                   eof := ev != 0, data_len := data.length, data := data })) ∧
    (∀ (s af : Nat) (tail : Bytes) (b : Bool),
      s < 4294967296 → af ≤ 1 → tail.length < 84 →
      parse_nfs3_reply_read (be32enc s ++ (be32enc af ++ tail)) b =
        .error .incomplete) := by
  constructor
  · intro s af blob cnt ev data pad hs haf hblob hcnt hev hdc hp
    rw [read_preamble s af blob cnt ev data.length (data ++ pad) true hs haf hblob hcnt
      hev hdc]
    have hp2 : pad.length = (if data.length % 4 = 0 then 0 else 4 - data.length % 4) := by
      rw [hp, fillLen_flip]
    simp [data_complete_exact data pad _ hp2]
  · intro s af tail b hs haf hshort
    simp only [parse_nfs3_reply_read]
    simp only [be_u32_enc s _ hs, ok_bind]
    rw [verify_u32_enc _ af _ (by omega)]
    simp [haf]
    simp [takeN_short 84 tail (by omega)]

/-- Witness for C10: the attribute blob is consumed for flag 0 and flag 1
alike, and a 10-byte remainder after the flag is an error. -/
theorem C10_read_attr_blob_unconditional_witness :
    parse_nfs3_reply_read
        (be32enc 0 ++ (be32enc 0 ++ (List.replicate 84 3 ++ (be32enc 0 ++
          (be32enc 0 ++ (be32enc 0 ++ ([] ++ []))))))) true =
      .ok ([], { status := 0, attr_follows := 0, attr_blob := List.replicate 84 3,
                 count := 0, eof := false, data_len := 0, data := [] }) ∧
    parse_nfs3_reply_read
        (be32enc 0 ++ (be32enc 1 ++ (List.replicate 84 3 ++ (be32enc 0 ++
          (be32enc 1 ++ (be32enc 0 ++ ([] ++ []))))))) true =
      .ok ([], { status := 0, attr_follows := 1, attr_blob := List.replicate 84 3,
                 count := 0, eof := true, data_len := 0, data := [] }) ∧
    parse_nfs3_reply_read
        (be32enc 0 ++ (be32enc 1 ++ [9, 9, 9, 9, 9, 9, 9, 9, 9, 9])) false =
      .error .incomplete := by
  refine ⟨?_, ?_, ?_⟩
  · have hmain := C10_read_attr_blob_unconditional.1 0 0 (List.replicate 84 3) 0 0 [] []
      (by norm_num) (by norm_num) (by simp) (by norm_num) (by norm_num) (by norm_num)
      (by norm_num [fillLen])
    simpa using hmain
  · have hmain := C10_read_attr_blob_unconditional.1 0 1 (List.replicate 84 3) 0 1 [] []
      (by norm_num) (by norm_num) (by simp) (by norm_num) (by norm_num) (by norm_num)
      (by norm_num [fillLen])
    simpa using hmain
  · have hmain := C10_read_attr_blob_unconditional.2 0 1 [9, 9, 9, 9, 9, 9, 9, 9, 9, 9]
      false (by norm_num) (by norm_num) (by norm_num)
    simpa using hmain

/-! ### The many0 loop: unfolding lemmas -/

theorem many0F_fuel {α : Type} (p : Bytes → IResult α) :
    ∀ (f1 f2 : Nat) (i : Bytes), i.length < f1 → i.length < f2 →
      many0F p f1 i = many0F p f2 i := by
  intro f1
  induction f1 with
  | zero => intro f2 i h1 _; omega
  | succ g ih =>
    intro f2 i h1 h2
    cases f2 with
    | zero => omega
    | succ g2 =>
      simp only [many0F]
      cases hp : p i with
      | error e => cases e <;> rfl
      | ok x =>
        obtain ⟨i2, o⟩ := x
        by_cases hlt : i2.length < i.length
        · simp only [if_pos hlt]
          rw [ih g2 i2 (by omega) (by omega)]
        · simp only [if_neg hlt]

theorem many0_step {α : Type} (p : Bytes → IResult α) (i i2 : Bytes) (o : α)
    (hp : p i = .ok (i2, o)) (hlt : i2.length < i.length) :
    many0 p i =
      (match many0 p i2 with
       | .ok (r, os) => .ok (r, o :: os)
       | .error e => .error e) := by
  unfold many0
  simp only [many0F]
  rw [hp]
  simp only [if_pos hlt]
  rw [many0F_fuel p i.length (i2.length + 1) i2 (by omega) (by omega)]
  rfl

theorem many0_stop {α : Type} (p : Bytes → IResult α) (i : Bytes) (k : ErrKind)
    (hp : p i = .error (.error k)) : many0 p i = .ok (i, []) := by
  unfold many0
  simp only [many0F]
  rw [hp]

theorem completeP_ok {α : Type} (p : Bytes → IResult α) (i : Bytes) (x : Bytes × α)
    (h : p i = .ok x) : completeP p i = .ok x := by
  simp [completeP, h]

/-- A READDIRPLUS continuation flag 0 parses as an absent entry, consuming
exactly the 4 flag bytes. -/
theorem entry_cond_zero (tail : Bytes) :
    parse_nfs3_response_readdirplus_entry_cond (be32enc 0 ++ tail) =
      .ok (tail, { entry := none }) := by
  simp only [parse_nfs3_response_readdirplus_entry_cond]
  rw [verify_u32_enc _ 0 _ (by norm_num)]
  simp [pcond]

/-- A READDIRPLUS continuation flag 1 followed by an entry parses as a
present entry. -/
theorem entry_cond_one (fid : Nat) (name pad cookie tail : Bytes)
    (hf : fid < 18446744073709551616) (h2 : name.length < 4294967296)
    (hp : pad.length = fillLen name.length) (hc : cookie.length = 8) :
    parse_nfs3_response_readdirplus_entry_cond
        (be32enc 1 ++ (be64enc fid ++ (be32enc name.length ++ (name ++ (pad ++ (cookie ++
          (be32enc 0 ++ (be32enc 0 ++ tail)))))))) =
      .ok (tail, { entry := some { name_vec := name, handle := none } }) := by
  simp only [parse_nfs3_response_readdirplus_entry_cond]
  rw [verify_u32_enc _ 1 _ (by norm_num)]
  simp [pcond, entry_parse_enc fid name pad cookie tail hf h2 hp hc]

/-- Fewer than 4 bytes cannot begin another entry: `complete!` turns the
Incomplete of the flag read into a hard error, ending the `many0` loop. -/
theorem completeP_entry_cond_short (t : Bytes) (h : t.length < 4) :
    completeP parse_nfs3_response_readdirplus_entry_cond t =
      .error (.error .Complete) := by
  have hb : be_u32 t = .error .incomplete := be_u32_short t h
  simp [completeP, parse_nfs3_response_readdirplus_entry_cond, verify, hb]

/-- Counterexample to C4 as stated: on `[flag=1][entry][flag=1][entry][flag=0]`
followed by the trailing bytes `[0,0,0,0]`, the entries decoder does not
stop at the terminal 0 flag and does not leave the trailing bytes
untouched: the 0 flag itself parses as an absent-entry element, the loop
continues into the trailing bytes (parsing them as a further absent-entry
element), and the result is a four-element list with empty remainder
instead of two entries with remainder `[0,0,0,0]`. -/
theorem C4_counterexample :
    many0_nfs3_response_readdirplus_entries
        ([0, 0, 0, 1] ++
          ([0, 0, 0, 0, 0, 0, 0, 0] ++ [0, 0, 0, 4] ++ [65, 66, 67, 68] ++
            [0, 0, 0, 0, 0, 0, 0, 0] ++ [0, 0, 0, 0] ++ [0, 0, 0, 0]) ++
          [0, 0, 0, 1] ++
          ([0, 0, 0, 0, 0, 0, 0, 0] ++ [0, 0, 0, 4] ++ [65, 66, 67, 68] ++
            [0, 0, 0, 0, 0, 0, 0, 0] ++ [0, 0, 0, 0] ++ [0, 0, 0, 0]) ++
          [0, 0, 0, 0] ++ [0, 0, 0, 0]) =
      .ok ([], [{ entry := some { name_vec := [65, 66, 67, 68], handle := none } },
                { entry := some { name_vec := [65, 66, 67, 68], handle := none } },
                { entry := none },
                { entry := none }]) := by
  rfl

/-- Claim C4 (amended): on `[flag=1][entry][flag=1][entry][flag=0]` followed
by trailing bytes, the entries decoder returns the two present entries
followed by one absent-entry element for the 0 flag — the loop does not
stop at the flag but keeps parsing after it; when the trailing bytes
cannot begin another element (fewer than 4 bytes remain), the loop ends
there, leaving exactly the trailing bytes as the remainder. -/
theorem C4_readdirplus_entries_amended
    (f1 f2 : Nat) (n1 p1 c1 n2 p2 c2 trailing : Bytes)
    (hf1 : f1 < 18446744073709551616) (hn1 : n1.length < 4294967296)
    (hp1 : p1.length = fillLen n1.length) (hc1 : c1.length = 8)
    (hf2 : f2 < 18446744073709551616) (hn2 : n2.length < 4294967296)
    (hp2 : p2.length = fillLen n2.length) (hc2 : c2.length = 8)
    (ht : trailing.length < 4) :
    many0_nfs3_response_readdirplus_entries
        (be32enc 1 ++ (be64enc f1 ++ (be32enc n1.length ++ (n1 ++ (p1 ++ (c1 ++
          (be32enc 0 ++ (be32enc 0 ++
            (be32enc 1 ++ (be64enc f2 ++ (be32enc n2.length ++ (n2 ++ (p2 ++ (c2 ++
              (be32enc 0 ++ (be32enc 0 ++
                (be32enc 0 ++ trailing))))))))))))))))) =
      .ok (trailing,
           [{ entry := some { name_vec := n1, handle := none } },
            { entry := some { name_vec := n2, handle := none } },
            { entry := none }]) := by
  unfold many0_nfs3_response_readdirplus_entries
  rw [many0_step _ _ _ _
    (completeP_ok _ _ _ (entry_cond_one f1 n1 p1 c1 _ hf1 hn1 hp1 hc1))
    (by simp [be32enc, be64enc]; omega)]
  rw [many0_step _ _ _ _
    (completeP_ok _ _ _ (entry_cond_one f2 n2 p2 c2 _ hf2 hn2 hp2 hc2))
    (by simp [be32enc, be64enc]; omega)]
  rw [many0_step _ _ _ _
    (completeP_ok _ _ _ (entry_cond_zero trailing))
    (by simp [be32enc]; omega)]
  rw [many0_stop _ _ .Complete (completeP_entry_cond_short trailing ht)]

/-- Witness for C4 (amended): two concrete entries, a 0 flag, and a single
trailing byte left as the remainder. -/
theorem C4_readdirplus_entries_amended_witness :
    many0_nfs3_response_readdirplus_entries
        [0, 0, 0, 1,
         0, 0, 0, 0, 0, 0, 0, 0, 0, 0, 0, 4, 65, 66, 67, 68,
         0, 0, 0, 0, 0, 0, 0, 0, 0, 0, 0, 0, 0, 0, 0, 0,
         0, 0, 0, 1,
         0, 0, 0, 0, 0, 0, 0, 0, 0, 0, 0, 4, 69, 70, 71, 72,
         0, 0, 0, 0, 0, 0, 0, 0, 0, 0, 0, 0, 0, 0, 0, 0,
         0, 0, 0, 0, 9] =
      .ok ([9],
           [{ entry := some { name_vec := [65, 66, 67, 68], handle := none } },
            { entry := some { name_vec := [69, 70, 71, 72], handle := none } },
            { entry := none }]) := by
  have hmain := C4_readdirplus_entries_amended 0 0 [65, 66, 67, 68] []
    [0, 0, 0, 0, 0, 0, 0, 0] [69, 70, 71, 72] [] [0, 0, 0, 0, 0, 0, 0, 0] [9]
    (by norm_num) (by norm_num) (by norm_num [fillLen]) (by norm_num)
    (by norm_num) (by norm_num) (by norm_num [fillLen]) (by norm_num) (by norm_num)
  simpa [be32enc, be64enc] using hmain

/-- Claim C5, evaluated at the failing input: the CREATE request decoder
does not skip the name's 0–3 alignment padding bytes before the
create-mode field. With handle length 0, name length 1, name byte 97, wire
padding bytes 9,9,9 and an intended create-mode of 5 encoded after them,
the decoder reads its 4-byte create-mode immediately after the single name
byte — yielding 151587072 (0x09090900, the three padding bytes and one
mode byte) instead of 5, and leaving the final mode bytes inside the
verifier blob. -/
theorem C5_create_reads_padding_as_mode :
    parse_nfs3_request_create
        ([0, 0, 0, 0] ++ ([0, 0, 0, 1] ++ ([97] ++ ([9, 9, 9] ++ [0, 0, 0, 5])))) =
      .ok ([], { handle := ⟨0, []⟩, name_len := 1, create_mode := 151587072,
                 verifier := [0, 0, 5], name_vec := [97] }) ∧
    (151587072 : Nat) ≠ 5 := by
  constructor
  · rfl
  · norm_num

/-! ### Safety: every decoder is total and never reads past its buffer.
On success the returned remainder is a suffix of the input, so every byte
of the result comes from the given buffer; on failure a typed error is
returned. Totality itself is by construction: all parsers are total Lean
functions. -/

def Consumes {α : Type} (p : Bytes → Except NErr (Bytes × α)) : Prop :=
  ∀ i r v, p i = .ok (r, v) → List.IsSuffix r i

theorem bind_ok_inv {α β : Type} {e : Except NErr (Bytes × α)}
    {f : Bytes × α → Except NErr (Bytes × β)} {w : Bytes × β}
    (h : (e >>= f) = .ok w) : ∃ x, e = .ok x ∧ f x = .ok w := by
  cases e with
  | ok x => exact ⟨x, rfl, h⟩
  | error e => simp at h

theorem consumes_takeN (n : Nat) : Consumes (takeN n) := by
  intro i r v h
  unfold takeN at h
  split at h
  · simp only [Except.ok.injEq, Prod.mk.injEq] at h
    obtain ⟨h1, _⟩ := h
    subst h1
    exact List.drop_suffix n i
  · simp at h

theorem consumes_be_u32 : Consumes be_u32 := by
  intro i r v h
  unfold be_u32 at h
  split at h
  · rename_i b0 b1 b2 b3 t
    simp only [Except.ok.injEq, Prod.mk.injEq] at h
    obtain ⟨h1, _⟩ := h
    subst h1
    exact ⟨[b0, b1, b2, b3], rfl⟩
  · simp at h

theorem consumes_be_u64 : Consumes be_u64 := by
  intro i r v h
  unfold be_u64 at h
  split at h
  · rename_i b0 b1 b2 b3 b4 b5 b6 b7 t
    simp only [Except.ok.injEq, Prod.mk.injEq] at h
    obtain ⟨h1, _⟩ := h
    subst h1
    exact ⟨[b0, b1, b2, b3, b4, b5, b6, b7], rfl⟩
  · simp at h

theorem consumes_rest : Consumes rest := by
  intro i r v h
  unfold rest at h
  simp only [Except.ok.injEq, Prod.mk.injEq] at h
  obtain ⟨h1, _⟩ := h
  subst h1
  exact List.nil_suffix

theorem consumes_verify (f : Nat → Bool) : Consumes (verify be_u32 f) := by
  intro i r v h
  unfold verify at h
  cases hpi : be_u32 i with
  | ok x =>
    obtain ⟨r1, v1⟩ := x
    simp only [hpi] at h
    by_cases hf : f v1 = true
    · simp [hf] at h
      obtain ⟨h1, _⟩ := h
      subst h1
      exact consumes_be_u32 _ _ _ hpi
    · simp [hf] at h
  | error e =>
    simp only [hpi] at h
    simp at h

theorem consumes_pcond {α : Type} (b : Bool) (p : Bytes → Except NErr (Bytes × α))
    (hp : Consumes p) : Consumes (pcond b p) := by
  intro i r v h
  unfold pcond at h
  by_cases hb : b = true
  · simp only [hb, if_true] at h
    cases hpi : p i with
    | ok x =>
      obtain ⟨r1, v1⟩ := x
      simp only [hpi] at h
      simp at h
      obtain ⟨h1, _⟩ := h
      subst h1
      exact hp _ _ _ hpi
    | error e =>
      simp only [hpi] at h
      simp at h
  · simp [hb] at h
    obtain ⟨h1, _⟩ := h
    subst h1
    exact List.suffix_refl _

theorem consumes_handle : Consumes parse_nfs3_handle := by
  intro i r v h
  unfold parse_nfs3_handle at h
  obtain ⟨⟨i1, n⟩, h1, h⟩ := bind_ok_inv h
  obtain ⟨⟨i2, o⟩, h2, h⟩ := bind_ok_inv h
  simp only [Except.ok.injEq, Prod.mk.injEq] at h
  obtain ⟨h3, _⟩ := h
  subst h3
  exact (consumes_takeN n i1 i2 o h2).trans (consumes_be_u32 i i1 n h1)

theorem consumes_response_create : Consumes parse_nfs3_response_create := by
  intro i r v h
  unfold parse_nfs3_response_create at h
  obtain ⟨⟨i1, a1⟩, h1, h⟩ := bind_ok_inv h
  obtain ⟨⟨i2, a2⟩, h2, h⟩ := bind_ok_inv h
  obtain ⟨⟨i3, a3⟩, h3, h⟩ := bind_ok_inv h
  simp only [Except.ok.injEq, Prod.mk.injEq] at h
  obtain ⟨h4, _⟩ := h
  subst h4
  exact ((consumes_pcond _ _ consumes_handle _ _ _ h3).trans
    (consumes_verify _ _ _ _ h2)).trans (consumes_be_u32 _ _ _ h1)

theorem consumes_response_lookup : Consumes parse_nfs3_response_lookup := by
  intro i r v h
  unfold parse_nfs3_response_lookup at h
  obtain ⟨⟨i1, a1⟩, h1, h⟩ := bind_ok_inv h
  obtain ⟨⟨i2, a2⟩, h2, h⟩ := bind_ok_inv h
  simp only [Except.ok.injEq, Prod.mk.injEq] at h
  obtain ⟨h3, _⟩ := h
  subst h3
  exact (consumes_handle _ _ _ h2).trans (consumes_be_u32 _ _ _ h1)

theorem consumes_request_create : Consumes parse_nfs3_request_create := by
  intro i r v h
  unfold parse_nfs3_request_create at h
  obtain ⟨⟨i1, a1⟩, h1, h⟩ := bind_ok_inv h
  obtain ⟨⟨i2, a2⟩, h2, h⟩ := bind_ok_inv h
  obtain ⟨⟨i3, a3⟩, h3, h⟩ := bind_ok_inv h
  obtain ⟨⟨i4, a4⟩, h4, h⟩ := bind_ok_inv h
  obtain ⟨⟨i5, a5⟩, h5, h⟩ := bind_ok_inv h
  simp only [Except.ok.injEq, Prod.mk.injEq] at h
  obtain ⟨h6, _⟩ := h
  subst h6
  exact ((((consumes_rest _ _ _ h5).trans (consumes_be_u32 _ _ _ h4)).trans
    (consumes_takeN _ _ _ _ h3)).trans (consumes_be_u32 _ _ _ h2)).trans
    (consumes_handle _ _ _ h1)

theorem consumes_request_remove : Consumes parse_nfs3_request_remove := by
  intro i r v h
  unfold parse_nfs3_request_remove at h
  obtain ⟨⟨i1, a1⟩, h1, h⟩ := bind_ok_inv h
  obtain ⟨⟨i2, a2⟩, h2, h⟩ := bind_ok_inv h
  obtain ⟨⟨i3, a3⟩, h3, h⟩ := bind_ok_inv h
  obtain ⟨⟨i4, a4⟩, h4, h⟩ := bind_ok_inv h
  simp only [Except.ok.injEq, Prod.mk.injEq] at h
  obtain ⟨h5, _⟩ := h
  subst h5
  exact (((consumes_rest _ _ _ h4).trans (consumes_takeN _ _ _ _ h3)).trans
    (consumes_be_u32 _ _ _ h2)).trans (consumes_handle _ _ _ h1)

theorem consumes_request_rmdir : Consumes parse_nfs3_request_rmdir := by
  intro i r v h
  unfold parse_nfs3_request_rmdir at h
  obtain ⟨⟨i1, a1⟩, h1, h⟩ := bind_ok_inv h
  obtain ⟨⟨i2, a2⟩, h2, h⟩ := bind_ok_inv h
  obtain ⟨⟨i3, a3⟩, h3, h⟩ := bind_ok_inv h
  obtain ⟨⟨i4, a4⟩, h4, h⟩ := bind_ok_inv h
  simp only [Except.ok.injEq, Prod.mk.injEq] at h
  obtain ⟨h5, _⟩ := h
  subst h5
  exact (((consumes_pcond _ _ (consumes_takeN _) _ _ _ h4).trans
    (consumes_takeN _ _ _ _ h3)).trans (consumes_be_u32 _ _ _ h2)).trans
    (consumes_handle _ _ _ h1)

theorem consumes_request_mkdir : Consumes parse_nfs3_request_mkdir := by
  intro i r v h
  unfold parse_nfs3_request_mkdir at h
  obtain ⟨⟨i1, a1⟩, h1, h⟩ := bind_ok_inv h
  obtain ⟨⟨i2, a2⟩, h2, h⟩ := bind_ok_inv h
  obtain ⟨⟨i3, a3⟩, h3, h⟩ := bind_ok_inv h
  obtain ⟨⟨i4, a4⟩, h4, h⟩ := bind_ok_inv h
  obtain ⟨⟨i5, a5⟩, h5, h⟩ := bind_ok_inv h
  simp only [Except.ok.injEq, Prod.mk.injEq] at h
  obtain ⟨h6, _⟩ := h
  subst h6
  exact ((((consumes_rest _ _ _ h5).trans
    (consumes_pcond _ _ (consumes_takeN _) _ _ _ h4)).trans
    (consumes_takeN _ _ _ _ h3)).trans (consumes_be_u32 _ _ _ h2)).trans
    (consumes_handle _ _ _ h1)

theorem consumes_request_rename : Consumes parse_nfs3_request_rename := by
  intro i r v h
  unfold parse_nfs3_request_rename at h
  obtain ⟨⟨i1, a1⟩, h1, h⟩ := bind_ok_inv h
  obtain ⟨⟨i2, a2⟩, h2, h⟩ := bind_ok_inv h
  obtain ⟨⟨i3, a3⟩, h3, h⟩ := bind_ok_inv h
  obtain ⟨⟨i4, a4⟩, h4, h⟩ := bind_ok_inv h
  obtain ⟨⟨i5, a5⟩, h5, h⟩ := bind_ok_inv h
  obtain ⟨⟨i6, a6⟩, h6, h⟩ := bind_ok_inv h
  obtain ⟨⟨i7, a7⟩, h7, h⟩ := bind_ok_inv h
  obtain ⟨⟨i8, a8⟩, h8, h⟩ := bind_ok_inv h
  simp only [Except.ok.injEq, Prod.mk.injEq] at h
  obtain ⟨h9, _⟩ := h
  subst h9
  exact (((((((consumes_rest _ _ _ h8).trans (consumes_takeN _ _ _ _ h7)).trans
    (consumes_be_u32 _ _ _ h6)).trans (consumes_handle _ _ _ h5)).trans
    (consumes_pcond _ _ (consumes_takeN _) _ _ _ h4)).trans
    (consumes_takeN _ _ _ _ h3)).trans (consumes_be_u32 _ _ _ h2)).trans
    (consumes_handle _ _ _ h1)

theorem consumes_request_getattr : Consumes parse_nfs3_request_getattr := by
  intro i r v h
  unfold parse_nfs3_request_getattr at h
  obtain ⟨⟨i1, a1⟩, h1, h⟩ := bind_ok_inv h
  simp only [Except.ok.injEq, Prod.mk.injEq] at h
  obtain ⟨h2, _⟩ := h
  subst h2
  exact consumes_handle _ _ _ h1

theorem consumes_request_access : Consumes parse_nfs3_request_access := by
  intro i r v h
  unfold parse_nfs3_request_access at h
  obtain ⟨⟨i1, a1⟩, h1, h⟩ := bind_ok_inv h
  obtain ⟨⟨i2, a2⟩, h2, h⟩ := bind_ok_inv h
  simp only [Except.ok.injEq, Prod.mk.injEq] at h
  obtain ⟨h3, _⟩ := h
  subst h3
  exact (consumes_be_u32 _ _ _ h2).trans (consumes_handle _ _ _ h1)

theorem consumes_request_commit : Consumes parse_nfs3_request_commit := by
  intro i r v h
  unfold parse_nfs3_request_commit at h
  obtain ⟨⟨i1, a1⟩, h1, h⟩ := bind_ok_inv h
  obtain ⟨⟨i2, a2⟩, h2, h⟩ := bind_ok_inv h
  obtain ⟨⟨i3, a3⟩, h3, h⟩ := bind_ok_inv h
  simp only [Except.ok.injEq, Prod.mk.injEq] at h
  obtain ⟨h4, _⟩ := h
  subst h4
  exact ((consumes_be_u32 _ _ _ h3).trans (consumes_be_u64 _ _ _ h2)).trans
    (consumes_handle _ _ _ h1)

theorem consumes_request_read : Consumes parse_nfs3_request_read := by
  intro i r v h
  unfold parse_nfs3_request_read at h
  obtain ⟨⟨i1, a1⟩, h1, h⟩ := bind_ok_inv h
  obtain ⟨⟨i2, a2⟩, h2, h⟩ := bind_ok_inv h
  obtain ⟨⟨i3, a3⟩, h3, h⟩ := bind_ok_inv h
  simp only [Except.ok.injEq, Prod.mk.injEq] at h
  obtain ⟨h4, _⟩ := h
  subst h4
  exact ((consumes_be_u32 _ _ _ h3).trans (consumes_be_u64 _ _ _ h2)).trans
    (consumes_handle _ _ _ h1)

theorem consumes_request_lookup : Consumes parse_nfs3_request_lookup := by
  intro i r v h
  unfold parse_nfs3_request_lookup at h
  obtain ⟨⟨i1, a1⟩, h1, h⟩ := bind_ok_inv h
  obtain ⟨⟨i2, a2⟩, h2, h⟩ := bind_ok_inv h
  obtain ⟨⟨i3, a3⟩, h3, h⟩ := bind_ok_inv h
  obtain ⟨⟨i4, a4⟩, h4, h⟩ := bind_ok_inv h
  simp only [Except.ok.injEq, Prod.mk.injEq] at h
  obtain ⟨h5, _⟩ := h
  subst h5
  exact (((consumes_rest _ _ _ h4).trans (consumes_takeN _ _ _ _ h3)).trans
    (consumes_be_u32 _ _ _ h2)).trans (consumes_handle _ _ _ h1)

theorem consumes_readdirplus_entry : Consumes parse_nfs3_response_readdirplus_entry := by
  intro i r v h
  unfold parse_nfs3_response_readdirplus_entry at h
  obtain ⟨⟨i1, a1⟩, h1, h⟩ := bind_ok_inv h
  obtain ⟨⟨i2, a2⟩, h2, h⟩ := bind_ok_inv h
  obtain ⟨⟨i3, a3⟩, h3, h⟩ := bind_ok_inv h
  obtain ⟨⟨i4, a4⟩, h4, h⟩ := bind_ok_inv h
  obtain ⟨⟨i5, a5⟩, h5, h⟩ := bind_ok_inv h
  obtain ⟨⟨i6, a6⟩, h6, h⟩ := bind_ok_inv h
  obtain ⟨⟨i7, a7⟩, h7, h⟩ := bind_ok_inv h
  obtain ⟨⟨i8, a8⟩, h8, h⟩ := bind_ok_inv h
  obtain ⟨⟨i9, a9⟩, h9, h⟩ := bind_ok_inv h
  simp only [Except.ok.injEq, Prod.mk.injEq] at h
  obtain ⟨h10, _⟩ := h
  subst h10
  exact ((((((((consumes_pcond _ _ consumes_handle _ _ _ h9).trans
    (consumes_verify _ _ _ _ h8)).trans
    (consumes_pcond _ _ (consumes_takeN _) _ _ _ h7)).trans
    (consumes_verify _ _ _ _ h6)).trans
    (consumes_takeN _ _ _ _ h5)).trans
    (consumes_pcond _ _ (consumes_takeN _) _ _ _ h4)).trans
    (consumes_takeN _ _ _ _ h3)).trans
    (consumes_be_u32 _ _ _ h2)).trans
    (consumes_be_u64 _ _ _ h1)

theorem consumes_readdirplus_entry_cond :
    Consumes parse_nfs3_response_readdirplus_entry_cond := by
  intro i r v h
  unfold parse_nfs3_response_readdirplus_entry_cond at h
  obtain ⟨⟨i1, a1⟩, h1, h⟩ := bind_ok_inv h
  obtain ⟨⟨i2, a2⟩, h2, h⟩ := bind_ok_inv h
  simp only [Except.ok.injEq, Prod.mk.injEq] at h
  obtain ⟨h3, _⟩ := h
  subst h3
  exact (consumes_pcond _ _ consumes_readdirplus_entry _ _ _ h2).trans
    (consumes_verify _ _ _ _ h1)

theorem consumes_response_readdirplus : Consumes parse_nfs3_response_readdirplus := by
  intro i r v h
  unfold parse_nfs3_response_readdirplus at h
  obtain ⟨⟨i1, a1⟩, h1, h⟩ := bind_ok_inv h
  obtain ⟨⟨i2, a2⟩, h2, h⟩ := bind_ok_inv h
  obtain ⟨⟨i3, a3⟩, h3, h⟩ := bind_ok_inv h
  obtain ⟨⟨i4, a4⟩, h4, h⟩ := bind_ok_inv h
  obtain ⟨⟨i5, a5⟩, h5, h⟩ := bind_ok_inv h
  simp only [Except.ok.injEq, Prod.mk.injEq] at h
  obtain ⟨h6, _⟩ := h
  subst h6
  exact ((((consumes_rest _ _ _ h5).trans (consumes_takeN _ _ _ _ h4)).trans
    (consumes_pcond _ _ (consumes_takeN _) _ _ _ h3)).trans
    (consumes_verify _ _ _ _ h2)).trans (consumes_be_u32 _ _ _ h1)

theorem consumes_request_readdirplus : Consumes parse_nfs3_request_readdirplus := by
  intro i r v h
  unfold parse_nfs3_request_readdirplus at h
  obtain ⟨⟨i1, a1⟩, h1, h⟩ := bind_ok_inv h
  obtain ⟨⟨i2, a2⟩, h2, h⟩ := bind_ok_inv h
  obtain ⟨⟨i3, a3⟩, h3, h⟩ := bind_ok_inv h
  obtain ⟨⟨i4, a4⟩, h4, h⟩ := bind_ok_inv h
  obtain ⟨⟨i5, a5⟩, h5, h⟩ := bind_ok_inv h
  simp only [Except.ok.injEq, Prod.mk.injEq] at h
  obtain ⟨h6, _⟩ := h
  subst h6
  exact ((((consumes_be_u32 _ _ _ h5).trans (consumes_be_u32 _ _ _ h4)).trans
    (consumes_takeN _ _ _ _ h3)).trans (consumes_be_u32 _ _ _ h2)).trans
    (consumes_handle _ _ _ h1)

theorem consumes_data_complete (fl fb : Nat) :
    Consumes (fun i => parse_nfs3_data_complete i fl fb) := by
  intro i r v h
  simp only [parse_nfs3_data_complete] at h
  obtain ⟨⟨i1, a1⟩, h1, h⟩ := bind_ok_inv h
  obtain ⟨⟨i2, a2⟩, h2, h⟩ := bind_ok_inv h
  simp only [Except.ok.injEq, Prod.mk.injEq] at h
  obtain ⟨h3, _⟩ := h
  subst h3
  exact (consumes_pcond _ _ (consumes_takeN _) _ _ _ h2).trans
    (consumes_takeN _ _ _ _ h1)

theorem consumes_data_partial (fl fb : Nat) :
    Consumes (fun i => parse_nfs3_data_partial i fl fb) := by
  intro i r v h
  simp only [ parse_nfs3_data_partial] at h
  obtain ⟨⟨i1, a1⟩, h1, h⟩ := bind_ok_inv h
  obtain ⟨⟨i2, a2⟩, h2, h⟩ := bind_ok_inv h
  simp only [Except.ok.injEq, Prod.mk.injEq] at h
  obtain ⟨h3, _⟩ := h
  subst h3
  exact (consumes_pcond _ _ (consumes_takeN _) _ _ _ h2).trans
    (consumes_takeN _ _ _ _ h1)

theorem consumes_request_write (b : Bool) :
    Consumes (fun i => parse_nfs3_request_write i b) := by
  intro i r v h
  simp only [parse_nfs3_request_write] at h
  obtain ⟨⟨i1, a1⟩, h1, h⟩ := bind_ok_inv h
  obtain ⟨⟨i2, a2⟩, h2, h⟩ := bind_ok_inv h
  obtain ⟨⟨i3, a3⟩, h3, h⟩ := bind_ok_inv h
  obtain ⟨⟨i4, a4⟩, h4, h⟩ := bind_ok_inv h
  obtain ⟨⟨i5, a5⟩, h5, h⟩ := bind_ok_inv h
  have hs : List.IsSuffix r i5 := by
    split at h
    · obtain ⟨⟨i6, a6⟩, h6, h⟩ := bind_ok_inv h
      simp only [Except.ok.injEq, Prod.mk.injEq] at h
      obtain ⟨h7, _⟩ := h
      subst h7
      exact consumes_data_complete _ _ _ _ _ h6
    · split at h
      · obtain ⟨⟨i6, a6⟩, h6, h⟩ := bind_ok_inv h
        simp only [Except.ok.injEq, Prod.mk.injEq] at h
        obtain ⟨h7, _⟩ := h
        subst h7
        exact consumes_data_partial _ _ _ _ _ h6
      · obtain ⟨⟨i6, a6⟩, h6, h⟩ := bind_ok_inv h
        simp only [Except.ok.injEq, Prod.mk.injEq] at h
        obtain ⟨h7, _⟩ := h
        subst h7
        exact consumes_rest _ _ _ h6
  exact ((((hs.trans (consumes_verify _ _ _ _ h5)).trans
    (consumes_verify _ _ _ _ h4)).trans (consumes_be_u32 _ _ _ h3)).trans
    (consumes_be_u64 _ _ _ h2)).trans (consumes_handle _ _ _ h1)

theorem consumes_reply_read (b : Bool) :
    Consumes (fun i => parse_nfs3_reply_read i b) := by
  intro i r v h
  simp only [parse_nfs3_reply_read] at h
  obtain ⟨⟨i1, a1⟩, h1, h⟩ := bind_ok_inv h
  obtain ⟨⟨i2, a2⟩, h2, h⟩ := bind_ok_inv h
  obtain ⟨⟨i3, a3⟩, h3, h⟩ := bind_ok_inv h
  obtain ⟨⟨i4, a4⟩, h4, h⟩ := bind_ok_inv h
  obtain ⟨⟨i5, a5⟩, h5, h⟩ := bind_ok_inv h
  obtain ⟨⟨i6, a6⟩, h6, h⟩ := bind_ok_inv h
  have hs : List.IsSuffix r i6 := by
    split at h
    · obtain ⟨⟨i7, a7⟩, h7, h⟩ := bind_ok_inv h
      simp only [Except.ok.injEq, Prod.mk.injEq] at h
      obtain ⟨h8, _⟩ := h
      subst h8
      exact consumes_data_complete _ _ _ _ _ h7
    · split at h
      · obtain ⟨⟨i7, a7⟩, h7, h⟩ := bind_ok_inv h
        simp only [Except.ok.injEq, Prod.mk.injEq] at h
        obtain ⟨h8, _⟩ := h
        subst h8
        exact consumes_data_partial _ _ _ _ _ h7
      · obtain ⟨⟨i7, a7⟩, h7, h⟩ := bind_ok_inv h
        simp only [Except.ok.injEq, Prod.mk.injEq] at h
        obtain ⟨h8, _⟩ := h
        subst h8
        exact consumes_rest _ _ _ h7
  exact (((((hs.trans (consumes_verify _ _ _ _ h6)).trans
    (consumes_verify _ _ _ _ h5)).trans (consumes_be_u32 _ _ _ h4)).trans
    (consumes_takeN _ _ _ _ h3)).trans (consumes_verify _ _ _ _ h2)).trans
    (consumes_be_u32 _ _ _ h1)

theorem consumes_completeP {α : Type} (p : Bytes → IResult α) (hp : Consumes p) :
    Consumes (completeP p) := by
  intro i r v h
  unfold completeP at h
  cases hpi : p i with
  | ok x =>
    obtain ⟨r1, v1⟩ := x
    simp only [hpi] at h
    simp at h
    obtain ⟨h1, _⟩ := h
    subst h1
    exact hp _ _ _ hpi
  | error e =>
    cases e with
    | incomplete =>
      simp only [hpi] at h
      simp at h
    | error k =>
      simp only [hpi] at h
      simp at h

theorem consumes_many0F {α : Type} (p : Bytes → IResult α) (hp : Consumes p) :
    ∀ (fuel : Nat) (i r : Bytes) (os : List α),
      many0F p fuel i = .ok (r, os) → List.IsSuffix r i := by
  intro fuel
  induction fuel with
  | zero =>
    intro i r os h
    simp [many0F] at h
  | succ g ih =>
    intro i r os h
    simp only [many0F] at h
    cases hpi : p i with
    | error e =>
      cases e with
      | incomplete =>
        simp only [hpi] at h
        simp at h
      | error k =>
        simp only [hpi] at h
        simp at h
        obtain ⟨h1, _⟩ := h
        subst h1
        exact List.suffix_refl _
    | ok x =>
      obtain ⟨i2, o⟩ := x
      simp only [hpi] at h
      by_cases hlt : i2.length < i.length
      · simp only [if_pos hlt] at h
        cases hm : many0F p g i2 with
        | ok y =>
          obtain ⟨r2, os2⟩ := y
          simp only [hm] at h
          simp at h
          obtain ⟨h1, _⟩ := h
          subst h1
          exact (ih i2 r2 os2 hm).trans (hp _ _ _ hpi)
        | error e =>
          simp only [hm] at h
          simp at h
      · simp only [if_neg hlt] at h
        simp at h

theorem consumes_many0_entries : Consumes many0_nfs3_response_readdirplus_entries := by
  intro i r v h
  unfold many0_nfs3_response_readdirplus_entries many0 at h
  exact consumes_many0F _ (consumes_completeP _ consumes_readdirplus_entry_cond) _ _ _ _ h

/-- Claim C9: every decoder entry point is total — being a total Lean
function it returns a record-plus-remainder or a typed error on every
input and can never panic — and never reads past the buffer it was given:
whenever it succeeds, the returned remainder is a suffix of the input
buffer, so everything consumed and returned came from that buffer; and a
fixed-size field with too few remaining bytes yields an Incomplete error,
never a partial or out-of-bounds read, as shown for the 4-byte length
field of `parse_nfs3_handle` and for `parse_nfs3_request_write` on a
buffer too short for it. -/
theorem C9_decoders_total_never_overread :
    Consumes parse_nfs3_handle ∧
    Consumes parse_nfs3_response_create ∧
    Consumes parse_nfs3_response_lookup ∧
    Consumes parse_nfs3_request_create ∧
    Consumes parse_nfs3_request_remove ∧
    Consumes parse_nfs3_request_rmdir ∧
    Consumes parse_nfs3_request_mkdir ∧
    Consumes parse_nfs3_request_rename ∧
    Consumes parse_nfs3_request_getattr ∧
    Consumes parse_nfs3_request_access ∧
    Consumes parse_nfs3_request_commit ∧
    Consumes parse_nfs3_request_read ∧
    Consumes parse_nfs3_request_lookup ∧
    Consumes parse_nfs3_response_readdirplus_entry ∧
    Consumes parse_nfs3_response_readdirplus_entry_cond ∧
    Consumes parse_nfs3_response_readdirplus ∧
    Consumes parse_nfs3_request_readdirplus ∧
    Consumes many0_nfs3_response_readdirplus_entries ∧
    (∀ b : Bool, Consumes (fun i => parse_nfs3_request_write i b)) ∧
    (∀ b : Bool, Consumes (fun i => parse_nfs3_reply_read i b)) ∧
    (∀ i : Bytes, i.length < 4 → parse_nfs3_handle i = .error .incomplete) ∧
    (∀ (i : Bytes) (b : Bool), i.length < 4 →
      parse_nfs3_request_write i b = .error .incomplete) :=
  ⟨consumes_handle, consumes_response_create, consumes_response_lookup,
   consumes_request_create, consumes_request_remove, consumes_request_rmdir,
   consumes_request_mkdir, consumes_request_rename, consumes_request_getattr,
   consumes_request_access, consumes_request_commit, consumes_request_read,
   consumes_request_lookup, consumes_readdirplus_entry,
   consumes_readdirplus_entry_cond, consumes_response_readdirplus,
   consumes_request_readdirplus, consumes_many0_entries,
   consumes_request_write, consumes_reply_read,
   fun i h => by simp [parse_nfs3_handle, be_u32_short i h],
   fun i b h => by simp [parse_nfs3_request_write, parse_nfs3_handle, be_u32_short i h]⟩

/-- Witness for C9 at concrete inputs: a successful handle decode leaves a
suffix of the buffer, and a 2-byte buffer is an Incomplete error for both
the handle decoder and the WRITE decoder. -/
theorem C9_decoders_total_never_overread_witness :
    List.IsSuffix ([7] : Bytes) [0, 0, 0, 1, 8, 7] ∧
    parse_nfs3_handle [1, 2] = .error .incomplete ∧
    parse_nfs3_request_write [1, 2] true = .error .incomplete :=
  ⟨C9_decoders_total_never_overread.1 [0, 0, 0, 1, 8, 7] [7]
      { len := 1, value := [8] } (by rfl),
   C9_decoders_total_never_overread.2.2.2.2.2.2.2.2.2.2.2.2.2.2.2.2.2.2.2.2.1
      [1, 2] (by norm_num),
   C9_decoders_total_never_overread.2.2.2.2.2.2.2.2.2.2.2.2.2.2.2.2.2.2.2.2.2
      [1, 2] true (by norm_num)⟩
